import Mathlib

/-!
Shallow embedding of the pvz-service reception/product core.

The relational store is modelled as an in-memory state with three tables
(pvz, reception, product) held as lists of rows, mirroring the schema of
migrations/000001_init_schema.up.sql.  The query layer embeds the squirrel
SQL builders of internal/db/queries (pvz.go, reception queries, product
queries); ORDER BY datetime DESC LIMIT 1 is embedded as head of an
insertion sort by the datetime key, descending.  The handler layer embeds
the gin handlers (CreatePVZ, GetPVZList, CreateReception,
CloseLastReception, AddProduct, DeleteLastProduct), with request binding
modelled as an Option body plus the validator tags of the request structs.
External collaborators are parameters: the uuid-format validator of the
gin binding is a function isUUID, and time.Parse with the RFC3339 layout
is a function parseRFC3339 returning none on malformed input.  UUIDs and
timestamps produced by uuid.New and time.Now are explicit arguments of
each operation.
-/

namespace PvzService

/-- Row of the pvz table (models.PVZ): id, registration_date, city. -/
structure PVZ where
  id : String
  registrationDate : Nat
  city : String
deriving Repr, DecidableEq

/-- Row of the reception table (models.Reception): id, datetime, pvz_id, status.
Status is the literal string stored in the database: in_progress or close. -/
structure Reception where
  id : String
  datetime : Nat
  pvzId : String
  status : String
deriving Repr, DecidableEq

/-- Row of the product table (models.Product): id, datetime, type, reception_id. -/
structure Product where
  id : String
  datetime : Nat
  type : String
  receptionId : String
deriving Repr, DecidableEq

/-- The whole database state: the three tables touched by the core. -/
structure DBState where
  pvzs : List PVZ
  receptions : List Reception
  products : List Product
deriving Repr, DecidableEq

/-- Outcome of a gin handler: an HTTP status code with either a JSON payload
or an ErrorResponse message. -/
inductive HandlerOutcome (α : Type) where
  | success (code : Nat) (val : α)
  | failure (code : Nat) (msg : String)
deriving Repr, DecidableEq

/-- Insert x into a list kept in descending key order (helper for the
embedding of ORDER BY key DESC). -/
def insertDesc {α : Type} (key : α → Nat) (x : α) : List α → List α
  | [] => [x]
  | y :: ys => if key y < key x then x :: y :: ys else y :: insertDesc key x ys

/-- Embedding of ORDER BY key DESC: sort a row list by a Nat key, descending. -/
def sortByKeyDesc {α : Type} (key : α → Nat) (l : List α) : List α :=
  l.foldr (insertDesc key) []

/-- Cities accepted by the oneof validator of models.CreatePVZRequest and the
CHECK constraint of the pvz table. -/
def allowedCities : List String := ["Москва", "Санкт-Петербург", "Казань"]

/-- Product types accepted by the oneof validator of models.CreateProductRequest
(constants ProductTypeElectronics, ProductTypeClothes, ProductTypeShoes) and
the CHECK constraint of the product table. -/
def productTypes : List String := ["электроника", "одежда", "обувь"]

/-- ReceptionQueries.CheckOpenReception: SELECT 1 FROM reception WHERE
pvz_id = P AND status = in_progress LIMIT 1, returned as existence. -/
def CheckOpenReception (s : DBState) (pvzID : String) : Bool :=
  s.receptions.any (fun r => r.pvzId == pvzID && r.status == "in_progress")

/-- ReceptionQueries.CreateReception: INSERT INTO reception with a fresh id,
now as datetime, and status in_progress, RETURNING the row. -/
def CreateReceptionQuery (s : DBState) (pvzID id : String) (now : Nat) :
    Reception × DBState :=
  let r : Reception := { id := id, datetime := now, pvzId := pvzID, status := "in_progress" }
  (r, { s with receptions := s.receptions ++ [r] })

/-- Rows of the reception table matching WHERE pvz_id = P AND status = in_progress. -/
def openReceptionsFor (s : DBState) (pvzID : String) : List Reception :=
  s.receptions.filter (fun r => r.pvzId == pvzID && r.status == "in_progress")

/-- ReceptionQueries.GetLastOpenReception: SELECT ... WHERE pvz_id = P AND
status = in_progress ORDER BY datetime DESC LIMIT 1; none embeds sql.ErrNoRows. -/
def GetLastOpenReception (s : DBState) (pvzID : String) : Option Reception :=
  (sortByKeyDesc (fun r => r.datetime) (openReceptionsFor s pvzID)).head?

/-- Status update applied by ReceptionQueries.CloseReception to each row:
SET status = close WHERE id = receptionID. -/
def updClose (receptionID : String) (r : Reception) : Reception :=
  if r.id == receptionID then { r with status := "close" } else r

/-- ReceptionQueries.CloseReception: UPDATE reception SET status = close
WHERE id = receptionID RETURNING the updated row (none if no row matched). -/
def CloseReception (s : DBState) (receptionID : String) :
    Option Reception × DBState :=
  let updated := s.receptions.map (updClose receptionID)
  (updated.find? (fun r => r.id == receptionID), { s with receptions := updated })

/-- ProductQueries.AddProduct: INSERT INTO product with a fresh id, now as
datetime, the given type and reception_id, RETURNING the row. -/
def AddProductQuery (s : DBState) (receptionID productType id : String) (now : Nat) :
    Product × DBState :=
  let p : Product := { id := id, datetime := now, type := productType, receptionId := receptionID }
  (p, { s with products := s.products ++ [p] })

/-- Rows of the product table matching WHERE reception_id = receptionID. -/
def productsOfReception (s : DBState) (receptionID : String) : List Product :=
  s.products.filter (fun p => p.receptionId == receptionID)

/-- ProductQueries.GetLastProductFromReception: SELECT ... WHERE
reception_id = receptionID ORDER BY datetime DESC LIMIT 1; none embeds
sql.ErrNoRows. -/
def GetLastProductFromReception (s : DBState) (receptionID : String) : Option Product :=
  (sortByKeyDesc (fun p => p.datetime) (productsOfReception s receptionID)).head?

/-- ProductQueries.DeleteProduct: DELETE FROM product WHERE id = productID,
failing when RowsAffected is zero. -/
def DeleteProduct (s : DBState) (productID : String) : Except String DBState :=
  let remaining := s.products.filter (fun p => p.id != productID)
  if remaining.length == s.products.length then
    Except.error "product not found"
  else
    Except.ok { s with products := remaining }

/-- Query parameters of GET /pvz (models.PVZListQuery). -/
structure PVZListQuery where
  startDate : String
  endDate : String
  page : Nat
  limit : Nat
deriving Repr, DecidableEq

/-- Lower bound actually applied by PVZQueries.GetPVZList: the startDate
filter is added only when the string is non-empty and parses as RFC3339. -/
def startDateFilter (parseRFC3339 : String → Option Nat) (params : PVZListQuery) :
    Option Nat :=
  if params.startDate == "" then none else parseRFC3339 params.startDate

/-- Upper bound actually applied by PVZQueries.GetPVZList, analogous to
the startDate case. -/
def endDateFilter (parseRFC3339 : String → Option Nat) (params : PVZListQuery) :
    Option Nat :=
  if params.endDate == "" then none else parseRFC3339 params.endDate

/-- WHERE clause of both queries built by PVZQueries.GetPVZList:
registration_date >= start (when applied) AND registration_date <= end
(when applied), inclusive on both bounds. -/
def matchesDateRange (parseRFC3339 : String → Option Nat) (params : PVZListQuery)
    (p : PVZ) : Bool :=
  (match startDateFilter parseRFC3339 params with
   | some t => decide (t ≤ p.registrationDate)
   | none => true) &&
  (match endDateFilter parseRFC3339 params with
   | some t => decide (p.registrationDate ≤ t)
   | none => true)

/-- PVZQueries.GetPVZList: a COUNT query over the date-filtered table, then
the page query ORDER BY registration_date DESC LIMIT limit
OFFSET (page-1)*limit; returns the page and the total count. -/
def GetPVZList (parseRFC3339 : String → Option Nat) (s : DBState)
    (params : PVZListQuery) : List PVZ × Nat :=
  let matching := s.pvzs.filter (matchesDateRange parseRFC3339 params)
  let total := matching.length
  let sorted := sortByKeyDesc (fun p => p.registrationDate) matching
  ((sorted.drop ((params.page - 1) * params.limit)).take params.limit, total)

/-- PVZHandler.CreatePVZ: bind the body first (ShouldBindJSON with the
required and oneof city validator), then the moderator role gate, then the
insert.  body = none models a malformed JSON body. -/
def CreatePVZHandler (role : String) (body : Option String) (s : DBState)
    (id : String) (now : Nat) : HandlerOutcome PVZ × DBState :=
  match body with
  | none => (HandlerOutcome.failure 400 "Неверный запрос", s)
  | some city =>
    if !(allowedCities.contains city) then
      (HandlerOutcome.failure 400 "Неверный запрос", s)
    else if role != "moderator" then
      (HandlerOutcome.failure 403 "Доступ запрещен: только модераторы могут создавать ПВЗ", s)
    else
      let p : PVZ := { id := id, registrationDate := now, city := city }
      (HandlerOutcome.success 201 p, { s with pvzs := s.pvzs ++ [p] })

/-- ReceptionHandler.CreateReception: employee role gate, then the body bind
(pvzId required and uuid-formatted), then CheckOpenReception, then the
insert of an in_progress reception. -/
def CreateReceptionHandler (isUUID : String → Bool) (role : String)
    (body : Option String) (s : DBState) (id : String) (now : Nat) :
    HandlerOutcome Reception × DBState :=
  if role != "employee" then
    (HandlerOutcome.failure 403 "Доступ запрещен: только сотрудники могут создавать приёмки", s)
  else
    match body with
    | none => (HandlerOutcome.failure 400 "Неверный запрос", s)
    | some pvzID =>
      if pvzID == "" || !(isUUID pvzID) then
        (HandlerOutcome.failure 400 "Неверный запрос", s)
      else if CheckOpenReception s pvzID then
        (HandlerOutcome.failure 400 "Для данного ПВЗ уже есть незакрытая приёмка", s)
      else
        let rs := CreateReceptionQuery s pvzID id now
        (HandlerOutcome.success 201 rs.1, rs.2)

/-- ReceptionHandler.CloseLastReception: reject an empty pvzId path param,
resolve the last open reception (failing when none), close it. -/
def CloseLastReceptionHandler (pvzID : String) (s : DBState) :
    HandlerOutcome Reception × DBState :=
  if pvzID == "" then
    (HandlerOutcome.failure 400 "Не указан ID ПВЗ", s)
  else
    match GetLastOpenReception s pvzID with
    | none => (HandlerOutcome.failure 400 "Ошибка при получении приёмки", s)
    | some r =>
      match CloseReception s r.id with
      | (none, s1) => (HandlerOutcome.failure 500 "Ошибка при закрытии приёмки", s1)
      | (some closed, s1) => (HandlerOutcome.success 200 closed, s1)

/-- ProductHandler.AddProduct: employee role gate, body bind (type oneof the
three product types, pvzId required uuid), resolve the last open reception,
defensive status re-check, then the insert. -/
def AddProductHandler (isUUID : String → Bool) (role : String)
    (body : Option (String × String)) (s : DBState) (id : String) (now : Nat) :
    HandlerOutcome Product × DBState :=
  if role != "employee" then
    (HandlerOutcome.failure 403 "Доступ запрещен: только сотрудники могут добавлять товары", s)
  else
    match body with
    | none => (HandlerOutcome.failure 400 "Неверный запрос", s)
    | some (productType, pvzID) =>
      if !(productTypes.contains productType) || pvzID == "" || !(isUUID pvzID) then
        (HandlerOutcome.failure 400 "Неверный запрос", s)
      else
        match GetLastOpenReception s pvzID with
        | none => (HandlerOutcome.failure 400 "Нет активной приёмки для данного ПВЗ", s)
        | some r =>
          if r.status != "in_progress" then
            (HandlerOutcome.failure 400 "Приёмка уже закрыта", s)
          else
            let ps := AddProductQuery s r.id productType id now
            (HandlerOutcome.success 201 ps.1, ps.2)

/-- ProductHandler.DeleteLastProduct: employee role gate, non-empty pvzId,
resolve the last open reception, defensive status re-check, fetch the
most-recent product (failing when the reception is empty), delete it by id. -/
def DeleteLastProductHandler (role pvzID : String) (s : DBState) :
    HandlerOutcome Unit × DBState :=
  if role != "employee" then
    (HandlerOutcome.failure 403 "Доступ запрещен: только сотрудники могут удалять товары", s)
  else if pvzID == "" then
    (HandlerOutcome.failure 400 "Не указан ID ПВЗ", s)
  else
    match GetLastOpenReception s pvzID with
    | none => (HandlerOutcome.failure 400 "Нет активной приёмки для данного ПВЗ", s)
    | some r =>
      if r.status != "in_progress" then
        (HandlerOutcome.failure 400 "Приёмка уже закрыта", s)
      else
        match GetLastProductFromReception s r.id with
        | none => (HandlerOutcome.failure 400 "Нет товаров для удаления в данной приёмке", s)
        | some p =>
          match DeleteProduct s p.id with
          | Except.error _ => (HandlerOutcome.failure 500 "Ошибка при удалении товара", s)
          | Except.ok s1 => (HandlerOutcome.success 200 () , s1)

/-- One public mutating request, with the caller role and bound body. -/
inductive Op where
  | createReception (role : String) (body : Option String) (id : String) (now : Nat)
  | closeLastReception (pvzID : String)
  | addProduct (role : String) (body : Option (String × String)) (id : String) (now : Nat)
  | deleteLastProduct (role : String) (pvzID : String)
deriving Repr, DecidableEq

/-- State effect of one request, routed to its handler. -/
def step (isUUID : String → Bool) (s : DBState) : Op → DBState
  | Op.createReception role body id now => (CreateReceptionHandler isUUID role body s id now).2
  | Op.closeLastReception pvzID => (CloseLastReceptionHandler pvzID s).2
  | Op.addProduct role body id now => (AddProductHandler isUUID role body s id now).2
  | Op.deleteLastProduct role pvzID => (DeleteLastProductHandler role pvzID s).2

/-- Sequential execution of a list of requests. -/
def run (isUUID : String → Bool) (s : DBState) (ops : List Op) : DBState :=
  ops.foldl (step isUUID) s

/-- The single-open-reception invariant: at most one in_progress reception
row per pickup point. -/
def singleOpenInv (s : DBState) : Prop :=
  ∀ P : String, (openReceptionsFor s P).length ≤ 1

/-- Every reception row with the given id is closed. -/
def allClosedAt (s : DBState) (R : String) : Prop :=
  ∀ r ∈ s.receptions, r.id = R → r.status = "close"

/-- The request does not insert a reception row with the given id (uuid
freshness of the id minted for a new reception). -/
def opAvoidsReceptionId (R : String) : Op → Prop
  | Op.createReception _ _ id _ => id ≠ R
  | _ => True

/-! Helper lemmas about the descending insertion sort that embeds
ORDER BY key DESC. -/

theorem insertDesc_perm {α : Type} (key : α → Nat) (x : α) (l : List α) :
    List.Perm (insertDesc key x l) (x :: l) := by
  induction l with
  | nil => simp [insertDesc]
  | cons y ys ih =>
    simp only [insertDesc]
    by_cases h : key y < key x
    · simp [h]
    · rw [if_neg h]
      exact (ih.cons y).trans (List.Perm.swap x y ys)

theorem sortByKeyDesc_perm {α : Type} (key : α → Nat) (l : List α) :
    List.Perm (sortByKeyDesc key l) l := by
  induction l with
  | nil => simp [sortByKeyDesc]
  | cons x xs ih =>
    have h1 : sortByKeyDesc key (x :: xs) = insertDesc key x (sortByKeyDesc key xs) := rfl
    rw [h1]
    exact (insertDesc_perm key x _).trans (ih.cons x)

theorem insertDesc_pairwise {α : Type} (key : α → Nat) (x : α) (l : List α)
    (h : List.Pairwise (fun a b => key b ≤ key a) l) :
    List.Pairwise (fun a b => key b ≤ key a) (insertDesc key x l) := by
  induction l with
  | nil => simp [insertDesc]
  | cons y ys ih =>
    rcases List.pairwise_cons.mp h with ⟨hy, hys⟩
    simp only [insertDesc]
    by_cases hlt : key y < key x
    · rw [if_pos hlt]
      refine List.pairwise_cons.mpr ⟨?_, h⟩
      intro b hb
      rcases List.mem_cons.mp hb with rfl | hb2
      · exact Nat.le_of_lt hlt
      · exact Nat.le_trans (hy b hb2) (Nat.le_of_lt hlt)
    · rw [if_neg hlt]
      refine List.pairwise_cons.mpr ⟨?_, ih hys⟩
      intro b hb
      have hmem := (insertDesc_perm key x ys).mem_iff.mp hb
      rcases List.mem_cons.mp hmem with rfl | hb2
      · exact Nat.le_of_not_lt hlt
      · exact hy b hb2

theorem sortByKeyDesc_pairwise {α : Type} (key : α → Nat) (l : List α) :
    List.Pairwise (fun a b => key b ≤ key a) (sortByKeyDesc key l) := by
  induction l with
  | nil => simp [sortByKeyDesc]
  | cons x xs ih => exact insertDesc_pairwise key x _ ih

theorem sortByKeyDesc_head_max {α : Type} (key : α → Nat) (l : List α) (a : α)
    (t : List α) (h : sortByKeyDesc key l = a :: t) :
    a ∈ l ∧ ∀ b ∈ l, key b ≤ key a := by
  have hperm := sortByKeyDesc_perm key l
  rw [h] at hperm
  constructor
  · exact hperm.mem_iff.mp (List.mem_cons_self a t)
  · intro b hb
    have hb2 : b ∈ a :: t := hperm.mem_iff.mpr hb
    rcases List.mem_cons.mp hb2 with rfl | hb3
    · exact Nat.le_refl _
    · have hp := sortByKeyDesc_pairwise key l
      rw [h] at hp
      exact (List.pairwise_cons.mp hp).1 b hb3

theorem sortByKeyDesc_eq_nil {α : Type} (key : α → Nat) (l : List α) :
    sortByKeyDesc key l = [] ↔ l = [] := by
  constructor
  · intro h
    have hperm := sortByKeyDesc_perm key l
    rw [h] at hperm
    exact hperm.symm.eq_nil
  · intro h
    rw [h]
    rfl

/-! Characterizations of the LIMIT 1 resolution queries. -/

theorem getLastOpenReception_spec (s : DBState) (P : String) (r : Reception)
    (h : GetLastOpenReception s P = some r) :
    r ∈ s.receptions ∧ r.pvzId = P ∧ r.status = "in_progress" ∧
      ∀ q ∈ s.receptions, q.pvzId = P → q.status = "in_progress" →
        q.datetime ≤ r.datetime := by
  unfold GetLastOpenReception at h
  cases hs : sortByKeyDesc (fun r => r.datetime) (openReceptionsFor s P) with
  | nil => rw [hs] at h; simp at h
  | cons a t =>
    rw [hs] at h
    simp only [List.head?] at h
    obtain rfl : a = r := by injection h
    obtain ⟨hmem, hmax⟩ := sortByKeyDesc_head_max _ _ _ _ hs
    have hmem2 := List.mem_filter.mp hmem
    have hcond := hmem2.2
    simp only [Bool.and_eq_true, beq_iff_eq] at hcond
    refine ⟨hmem2.1, hcond.1, hcond.2, ?_⟩
    intro q hq hqP hqst
    exact hmax q (List.mem_filter.mpr ⟨hq, by simp [hqP, hqst]⟩)

theorem getLastProductFromReception_spec (s : DBState) (rid : String) (p : Product)
    (h : GetLastProductFromReception s rid = some p) :
    p ∈ s.products ∧ p.receptionId = rid ∧
      ∀ q ∈ s.products, q.receptionId = rid → q.datetime ≤ p.datetime := by
  unfold GetLastProductFromReception at h
  cases hs : sortByKeyDesc (fun p => p.datetime) (productsOfReception s rid) with
  | nil => rw [hs] at h; simp at h
  | cons a t =>
    rw [hs] at h
    simp only [List.head?] at h
    obtain rfl : a = p := by injection h
    obtain ⟨hmem, hmax⟩ := sortByKeyDesc_head_max _ _ _ _ hs
    have hmem2 := List.mem_filter.mp hmem
    have hcond := hmem2.2
    simp only [beq_iff_eq] at hcond
    refine ⟨hmem2.1, hcond, ?_⟩
    intro q hq hqid
    exact hmax q (List.mem_filter.mpr ⟨hq, by simp [hqid]⟩)

theorem getLastOpenReception_none_iff (s : DBState) (P : String) :
    GetLastOpenReception s P = none ↔ openReceptionsFor s P = [] := by
  unfold GetLastOpenReception
  rw [List.head?_eq_none_iff, sortByKeyDesc_eq_nil]

theorem checkOpenReception_false_iff (s : DBState) (P : String) :
    CheckOpenReception s P = false ↔ openReceptionsFor s P = [] := by
  unfold CheckOpenReception openReceptionsFor
  rw [List.any_eq_false, List.filter_eq_nil_iff]

/-! State effect of each handler: either the request failed and the state is
untouched, or the handler performed its single write. -/

theorem createReceptionHandler_state (isUUID : String → Bool) (role : String)
    (body : Option String) (s : DBState) (id : String) (now : Nat) :
    (CreateReceptionHandler isUUID role body s id now).2 = s ∨
    ∃ pvzID, body = some pvzID ∧ CheckOpenReception s pvzID = false ∧
      (CreateReceptionHandler isUUID role body s id now).2 =
        { s with receptions := s.receptions ++
            [{ id := id, datetime := now, pvzId := pvzID, status := "in_progress" }] } := by
  cases body with
  | none => unfold CreateReceptionHandler; split <;> exact Or.inl rfl
  | some pvzID =>
    simp only [CreateReceptionHandler]
    split
    · exact Or.inl rfl
    · split
      · exact Or.inl rfl
      · split
        · exact Or.inl rfl
        · next hopen =>
          right
          exact ⟨pvzID, rfl, by simpa using hopen, rfl⟩

theorem closeLastReceptionHandler_state (pvzID : String) (s : DBState) :
    (CloseLastReceptionHandler pvzID s).2 = s ∨
    ∃ r, GetLastOpenReception s pvzID = some r ∧
      (CloseLastReceptionHandler pvzID s).2 =
        { s with receptions := s.receptions.map (updClose r.id) } := by
  unfold CloseLastReceptionHandler
  split
  · exact Or.inl rfl
  · split
    · exact Or.inl rfl
    · next r heq =>
      right
      refine ⟨r, heq, ?_⟩
      simp only [CloseReception]
      cases hf : (s.receptions.map (updClose r.id)).find? (fun q => q.id == r.id) <;>
        simp [hf]

theorem addProductHandler_state (isUUID : String → Bool) (role : String)
    (body : Option (String × String)) (s : DBState) (id : String) (now : Nat) :
    (AddProductHandler isUUID role body s id now).2 = s ∨
    ∃ ptype pvzID r, body = some (ptype, pvzID) ∧
      GetLastOpenReception s pvzID = some r ∧ r.status = "in_progress" ∧
      (AddProductHandler isUUID role body s id now).2 =
        { s with products := s.products ++
            [{ id := id, datetime := now, type := ptype, receptionId := r.id }] } := by
  cases body with
  | none => unfold AddProductHandler; split <;> exact Or.inl rfl
  | some pr =>
    obtain ⟨ptype, pvzID⟩ := pr
    simp only [AddProductHandler]
    split
    · exact Or.inl rfl
    · split
      · exact Or.inl rfl
      · split
        · exact Or.inl rfl
        · next r heq =>
          split
          · exact Or.inl rfl
          · next hst =>
            right
            exact ⟨ptype, pvzID, r, rfl, heq, by simpa using hst, rfl⟩

theorem deleteLastProductHandler_state (role pvzID : String) (s : DBState) :
    (DeleteLastProductHandler role pvzID s).2 = s ∨
    ∃ r p, GetLastOpenReception s pvzID = some r ∧
      GetLastProductFromReception s r.id = some p ∧
      (DeleteLastProductHandler role pvzID s).2 =
        { s with products := s.products.filter (fun q => q.id != p.id) } := by
  unfold DeleteLastProductHandler
  split
  · exact Or.inl rfl
  · split
    · exact Or.inl rfl
    · split
      · exact Or.inl rfl
      · next r heq =>
        split
        · exact Or.inl rfl
        · split
          · exact Or.inl rfl
          · next p hp =>
            cases hdel : DeleteProduct s p.id with
            | error e => simp [hdel]
            | ok s1 =>
              right
              refine ⟨r, p, heq, hp, ?_⟩
              simp only [hdel]
              simp only [DeleteProduct] at hdel
              split at hdel
              · exact absurd hdel (by simp)
              · injection hdel with hdel
                rw [← hdel]

/-! Preservation of the single-open-reception invariant. -/

theorem updClose_open_fix (rid P : String) (r : Reception)
    (h : ((updClose rid r).pvzId == P && (updClose rid r).status == "in_progress") = true) :
    updClose rid r = r := by
  unfold updClose at h ⊢
  by_cases hid : (r.id == rid) = true
  · rw [if_pos hid] at h
    simp at h
  · rw [if_neg hid]

theorem length_filter_map_le {α : Type} (f : α → α) (p : α → Bool) (l : List α)
    (hf : ∀ a, p (f a) = true → f a = a) :
    ((l.map f).filter p).length ≤ (l.filter p).length := by
  induction l with
  | nil => simp
  | cons a as ih =>
    rw [List.map_cons]
    cases hfa : p (f a) with
    | true =>
      have ha := hf a hfa
      have hpa : p a = true := by rw [← ha]; exact hfa
      rw [List.filter_cons_of_pos hfa, ha, List.filter_cons_of_pos hpa]
      simp only [List.length_cons]
      exact Nat.succ_le_succ ih
    | false =>
      rw [List.filter_cons_of_neg (by simp [hfa])]
      cases hpa : p a with
      | true =>
        rw [List.filter_cons_of_pos hpa]
        simp only [List.length_cons]
        exact Nat.le_succ_of_le ih
      | false =>
        rw [List.filter_cons_of_neg (by simp [hpa])]
        exact ih

theorem openReceptionsFor_map_updClose_le (s : DBState) (rid P : String) :
    (openReceptionsFor { s with receptions := s.receptions.map (updClose rid) } P).length ≤
      (openReceptionsFor s P).length := by
  unfold openReceptionsFor
  exact length_filter_map_le (updClose rid) _ s.receptions
    (fun a ha => updClose_open_fix rid P a ha)

theorem step_preserves_singleOpen (isUUID : String → Bool) (s : DBState) (op : Op)
    (h : singleOpenInv s) : singleOpenInv (step isUUID s op) := by
  cases op with
  | createReception role body id now =>
    rcases createReceptionHandler_state isUUID role body s id now with
      heq | ⟨pvzID, _, hchk, heq⟩
    · show singleOpenInv (CreateReceptionHandler isUUID role body s id now).2
      rw [heq]; exact h
    · show singleOpenInv (CreateReceptionHandler isUUID role body s id now).2
      rw [heq]
      intro P
      have hnil : openReceptionsFor s pvzID = [] :=
        (checkOpenReception_false_iff s pvzID).mp hchk
      by_cases hP : pvzID = P
      · subst hP
        simp only [openReceptionsFor] at hnil ⊢
        simp [List.filter_append, hnil]
      · have hbeq : (pvzID == P) = false := by simp [hP]
        have hP2 := h P
        simp only [openReceptionsFor] at hP2 ⊢
        simp [List.filter_append, hbeq]
        exact hP2
  | closeLastReception pvzID =>
    rcases closeLastReceptionHandler_state pvzID s with heq | ⟨r, _, heq⟩
    · show singleOpenInv (CloseLastReceptionHandler pvzID s).2
      rw [heq]; exact h
    · show singleOpenInv (CloseLastReceptionHandler pvzID s).2
      rw [heq]
      intro P
      exact Nat.le_trans (openReceptionsFor_map_updClose_le s r.id P) (h P)
  | addProduct role body id now =>
    rcases addProductHandler_state isUUID role body s id now with
      heq | ⟨pt, pv, r, _, _, _, heq⟩
    · show singleOpenInv (AddProductHandler isUUID role body s id now).2
      rw [heq]; exact h
    · show singleOpenInv (AddProductHandler isUUID role body s id now).2
      rw [heq]; exact h
  | deleteLastProduct role pvzID =>
    rcases deleteLastProductHandler_state role pvzID s with heq | ⟨r, p, _, _, heq⟩
    · show singleOpenInv (DeleteLastProductHandler role pvzID s).2
      rw [heq]; exact h
    · show singleOpenInv (DeleteLastProductHandler role pvzID s).2
      rw [heq]; exact h

/-- C1: for every pickup point P, after any sequence of the public operations
(CreateReception, CloseLastReception, AddProduct, DeleteLastProduct) executed
sequentially from a state satisfying the invariant, at most one reception row
with pvz_id = P has in_progress status; no reachable state contains two open
receptions for the same pickup point. -/
theorem singleOpen_invariant_preserved (isUUID : String → Bool) (s : DBState)
    (ops : List Op) (h : singleOpenInv s) : singleOpenInv (run isUUID s ops) := by
  induction ops generalizing s with
  | nil => exact h
  | cons op rest ih => exact ih _ (step_preserves_singleOpen isUUID s op h)

/-- Witness for C1: the invariant holds in the empty database and is still
present after a concrete sequence that opens a reception, tries to open a
second one for the same point, adds a product and closes the reception. -/
theorem singleOpen_invariant_preserved_witness :
    singleOpenInv { pvzs := [], receptions := [], products := [] } ∧
    singleOpenInv (run (fun _ => true)
      { pvzs := [], receptions := [], products := [] }
      [Op.createReception "employee" (some "pvz1") "r1" 1,
       Op.createReception "employee" (some "pvz1") "r2" 2,
       Op.addProduct "employee" (some ("обувь", "pvz1")) "p1" 3,
       Op.closeLastReception "pvz1"]) := by
  constructor
  · intro P
    simp [openReceptionsFor]
  · exact singleOpen_invariant_preserved (fun _ => true) _ _
      (by intro P; simp [openReceptionsFor])

/-! Terminality of the closed status. -/

theorem updClose_id (rid : String) (r : Reception) : (updClose rid r).id = r.id := by
  unfold updClose; split <;> rfl

theorem updClose_status (rid : String) (r : Reception) :
    (updClose rid r).status = r.status ∨ (updClose rid r).status = "close" := by
  unfold updClose; split
  · exact Or.inr rfl
  · exact Or.inl rfl

theorem step_preserves_closed (isUUID : String → Bool) (s : DBState) (op : Op)
    (R : String) (hcl : allClosedAt s R) (hav : opAvoidsReceptionId R op) :
    allClosedAt (step isUUID s op) R ∧
      ∀ p ∈ (step isUUID s op).products, p.receptionId = R → p ∈ s.products := by
  cases op with
  | createReception role body id now =>
    have hid : id ≠ R := hav
    rcases createReceptionHandler_state isUUID role body s id now with
      heq | ⟨pvzID, _, _, heq⟩
    · show allClosedAt (CreateReceptionHandler isUUID role body s id now).2 R ∧
        ∀ p ∈ (CreateReceptionHandler isUUID role body s id now).2.products, p.receptionId = R → p ∈ s.products
      rw [heq]
      exact ⟨hcl, fun p hp _ => hp⟩
    · show allClosedAt (CreateReceptionHandler isUUID role body s id now).2 R ∧
        ∀ p ∈ (CreateReceptionHandler isUUID role body s id now).2.products, p.receptionId = R → p ∈ s.products
      rw [heq]
      constructor
      · intro r hr hrR
        rcases List.mem_append.mp hr with hr2 | hr2
        · exact hcl r hr2 hrR
        · rcases List.mem_singleton.mp hr2 with rfl
          exact absurd hrR hid
      · intro p hp _
        exact hp
  | closeLastReception pvzID =>
    rcases closeLastReceptionHandler_state pvzID s with heq | ⟨r, _, heq⟩
    · show allClosedAt (CloseLastReceptionHandler pvzID s).2 R ∧
        ∀ p ∈ (CloseLastReceptionHandler pvzID s).2.products, p.receptionId = R → p ∈ s.products
      rw [heq]
      exact ⟨hcl, fun p hp _ => hp⟩
    · show allClosedAt (CloseLastReceptionHandler pvzID s).2 R ∧
        ∀ p ∈ (CloseLastReceptionHandler pvzID s).2.products, p.receptionId = R → p ∈ s.products
      rw [heq]
      constructor
      · intro q hq hqR
        rcases List.mem_map.mp hq with ⟨q0, hq0, rfl⟩
        rw [updClose_id r.id q0] at hqR
        rcases updClose_status r.id q0 with hst | hst
        · rw [hst]
          exact hcl q0 hq0 hqR
        · exact hst
      · intro p hp _
        exact hp
  | addProduct role body id now =>
    rcases addProductHandler_state isUUID role body s id now with
      heq | ⟨pt, pv, r, _, hres, hst, heq⟩
    · show allClosedAt (AddProductHandler isUUID role body s id now).2 R ∧
        ∀ p ∈ (AddProductHandler isUUID role body s id now).2.products, p.receptionId = R → p ∈ s.products
      rw [heq]
      exact ⟨hcl, fun p hp _ => hp⟩
    · show allClosedAt (AddProductHandler isUUID role body s id now).2 R ∧
        ∀ p ∈ (AddProductHandler isUUID role body s id now).2.products, p.receptionId = R → p ∈ s.products
      rw [heq]
      constructor
      · exact hcl
      · intro p hp hpR
        rcases List.mem_append.mp hp with hp2 | hp2
        · exact hp2
        · rcases List.mem_singleton.mp hp2 with rfl
          have hrmem := (getLastOpenReception_spec s pv r hres).1
          have hclose := hcl r hrmem hpR
          exact absurd (hst.symm.trans hclose) (by decide)
  | deleteLastProduct role pvzID =>
    rcases deleteLastProductHandler_state role pvzID s with heq | ⟨r, p, _, _, heq⟩
    · show allClosedAt (DeleteLastProductHandler role pvzID s).2 R ∧
        ∀ p ∈ (DeleteLastProductHandler role pvzID s).2.products, p.receptionId = R → p ∈ s.products
      rw [heq]
      exact ⟨hcl, fun p hp _ => hp⟩
    · show allClosedAt (DeleteLastProductHandler role pvzID s).2 R ∧
        ∀ p ∈ (DeleteLastProductHandler role pvzID s).2.products, p.receptionId = R → p ∈ s.products
      rw [heq]
      exact ⟨hcl, fun q hq _ => (List.mem_filter.mp hq).1⟩

theorem run_preserves_closed (isUUID : String → Bool) (s : DBState) (ops : List Op)
    (R : String) (hcl : allClosedAt s R)
    (hav : ∀ op ∈ ops, opAvoidsReceptionId R op) :
    allClosedAt (run isUUID s ops) R ∧
      ∀ p ∈ (run isUUID s ops).products, p.receptionId = R → p ∈ s.products := by
  induction ops generalizing s with
  | nil => exact ⟨hcl, fun p hp _ => hp⟩
  | cons op rest ih =>
    have h1 := step_preserves_closed isUUID s op R hcl (hav op (List.mem_cons_self op rest))
    have h2 := ih (step isUUID s op) h1.1 (fun o ho => hav o (List.mem_cons_of_mem op ho))
    refine ⟨h2.1, ?_⟩
    intro p hp hpR
    exact h1.2 p (h2.2 p hp hpR) hpR

theorem closeLastReception_no_open (s : DBState) (P : String) (hP : P ≠ "")
    (h : GetLastOpenReception s P = none) :
    CloseLastReceptionHandler P s =
      (HandlerOutcome.failure 400 "Ошибка при получении приёмки", s) := by
  unfold CloseLastReceptionHandler
  rw [if_neg (by simp [hP]), h]

/-- C4: the closed status of a reception is terminal: for every reception id R
all of whose rows are closed, after any operation sequence whose freshly
minted reception ids avoid R, every row with id R is still closed (never back
to in_progress), no product owned by R was created, and calling
CloseLastReception for a pickup point with no open reception fails with the
not-found error and changes no state. -/
theorem closed_reception_terminal (isUUID : String → Bool) (s : DBState)
    (ops : List Op) (R : String)
    (_hex : ∃ r ∈ s.receptions, r.id = R ∧ r.status = "close")
    (hcl : allClosedAt s R)
    (hav : ∀ op ∈ ops, opAvoidsReceptionId R op) :
    allClosedAt (run isUUID s ops) R ∧
    (∀ p ∈ (run isUUID s ops).products, p.receptionId = R → p ∈ s.products) ∧
    (∀ P, P ≠ "" → GetLastOpenReception (run isUUID s ops) P = none →
      CloseLastReceptionHandler P (run isUUID s ops) =
        (HandlerOutcome.failure 400 "Ошибка при получении приёмки",
          run isUUID s ops)) := by
  obtain ⟨h1, h2⟩ := run_preserves_closed isUUID s ops R hcl hav
  exact ⟨h1, h2, fun P hPne hnone => closeLastReception_no_open _ P hPne hnone⟩

/-- Witness for C4: a database holding one closed reception, run through a
sequence that opens a fresh reception, adds a product and closes it again. -/
theorem closed_reception_terminal_witness :
    (∃ r ∈ ({ pvzs := [], receptions := [{ id := "r1", datetime := 1, pvzId := "pvz1", status := "close" }], products := [] } : DBState).receptions,
        r.id = "r1" ∧ r.status = "close") ∧
    allClosedAt { pvzs := [], receptions := [{ id := "r1", datetime := 1, pvzId := "pvz1", status := "close" }], products := [] } "r1" ∧
    (allClosedAt (run (fun _ => true)
        { pvzs := [], receptions := [{ id := "r1", datetime := 1, pvzId := "pvz1", status := "close" }], products := [] }
        [Op.createReception "employee" (some "pvz1") "r2" 5,
         Op.addProduct "employee" (some ("обувь", "pvz1")) "p2" 6,
         Op.closeLastReception "pvz1"]) "r1" ∧
      (∀ p ∈ (run (fun _ => true)
          { pvzs := [], receptions := [{ id := "r1", datetime := 1, pvzId := "pvz1", status := "close" }], products := [] }
          [Op.createReception "employee" (some "pvz1") "r2" 5,
           Op.addProduct "employee" (some ("обувь", "pvz1")) "p2" 6,
           Op.closeLastReception "pvz1"]).products, p.receptionId = "r1" →
        p ∈ ({ pvzs := [], receptions := [{ id := "r1", datetime := 1, pvzId := "pvz1", status := "close" }], products := [] } : DBState).products) ∧
      (∀ P, P ≠ "" → GetLastOpenReception (run (fun _ => true)
          { pvzs := [], receptions := [{ id := "r1", datetime := 1, pvzId := "pvz1", status := "close" }], products := [] }
          [Op.createReception "employee" (some "pvz1") "r2" 5,
           Op.addProduct "employee" (some ("обувь", "pvz1")) "p2" 6,
           Op.closeLastReception "pvz1"]) P = none →
        CloseLastReceptionHandler P (run (fun _ => true)
          { pvzs := [], receptions := [{ id := "r1", datetime := 1, pvzId := "pvz1", status := "close" }], products := [] }
          [Op.createReception "employee" (some "pvz1") "r2" 5,
           Op.addProduct "employee" (some ("обувь", "pvz1")) "p2" 6,
           Op.closeLastReception "pvz1"]) =
          (HandlerOutcome.failure 400 "Ошибка при получении приёмки",
            run (fun _ => true)
              { pvzs := [], receptions := [{ id := "r1", datetime := 1, pvzId := "pvz1", status := "close" }], products := [] }
              [Op.createReception "employee" (some "pvz1") "r2" 5,
               Op.addProduct "employee" (some ("обувь", "pvz1")) "p2" 6,
               Op.closeLastReception "pvz1"]))) := by
  refine ⟨⟨_, List.mem_singleton.mpr rfl, rfl, rfl⟩, ?_, ?_⟩
  · intro r hr hrR
    rcases List.mem_singleton.mp hr with rfl
    rfl
  · exact closed_reception_terminal (fun _ => true) _ _ "r1"
      ⟨_, List.mem_singleton.mpr rfl, rfl, rfl⟩
      (by intro r hr hrR; rcases List.mem_singleton.mp hr with rfl; rfl)
      (by simp [opAvoidsReceptionId])

/-! Strict LIFO deletion. -/

theorem filter_swap {α : Type} (p q : α → Bool) (l : List α) :
    (l.filter p).filter q = (l.filter q).filter p := by
  induction l with
  | nil => rfl
  | cons a as ih =>
    by_cases hp : p a = true <;> by_cases hq : q a = true <;>
      simp [List.filter_cons, hp, hq, ih]

theorem length_filter_lt_of_mem {α : Type} (p : α → Bool) (l : List α) (a : α)
    (ha : a ∈ l) (hpa : p a = false) : (l.filter p).length < l.length := by
  induction l with
  | nil => cases ha
  | cons b bs ih =>
    rcases List.mem_cons.mp ha with rfl | ha2
    · rw [List.filter_cons_of_neg (by simp [hpa])]
      exact Nat.lt_succ_of_le (List.length_filter_le p bs)
    · cases hb : p b with
      | true =>
        rw [List.filter_cons_of_pos hb]
        simp only [List.length_cons]
        exact Nat.succ_lt_succ (ih ha2)
      | false =>
        rw [List.filter_cons_of_neg (by simp [hb])]
        exact Nat.lt_succ_of_lt (ih ha2)

theorem getLastProduct_strict_increasing (s : DBState) (rid : String)
    (init : List Product) (plast : Product)
    (hprods : productsOfReception s rid = init ++ [plast])
    (hinc : List.Chain' (fun a b => a.datetime < b.datetime) (init ++ [plast])) :
    GetLastProductFromReception s rid = some plast := by
  haveI : IsTrans Product (fun a b => a.datetime < b.datetime) :=
    ⟨fun a b c h1 h2 => Nat.lt_trans h1 h2⟩
  have hpw : List.Pairwise (fun a b => a.datetime < b.datetime) (init ++ [plast]) :=
    List.chain'_iff_pairwise.mp hinc
  have hlt : ∀ q ∈ init, q.datetime < plast.datetime := by
    intro q hq
    exact (List.pairwise_append.mp hpw).2.2 q hq plast (List.mem_singleton.mpr rfl)
  unfold GetLastProductFromReception
  rw [hprods]
  cases hs : sortByKeyDesc (fun p => p.datetime) (init ++ [plast]) with
  | nil =>
    have := (sortByKeyDesc_eq_nil _ _).mp hs
    exact absurd this (by simp)
  | cons a t =>
    obtain ⟨hmem, hmax⟩ := sortByKeyDesc_head_max _ _ _ _ hs
    have ha : a = plast := by
      rcases List.mem_append.mp hmem with h1 | h1
      · have h2 := hmax plast (List.mem_append_right init (List.mem_singleton.mpr rfl))
        exact absurd (Nat.lt_of_lt_of_le (hlt a h1) h2) (Nat.lt_irrefl _)
      · exact List.mem_singleton.mp h1
    subst ha
    rfl

/-- C2: for every open reception whose products are init followed by plast in
strictly increasing creation-timestamp order, a DeleteLastProduct call on the
pickup point succeeds and removes exactly plast, the product with the maximum
creation timestamp, leaving init present and unchanged; no other product is
removed. -/
theorem deleteLastProduct_strict_lifo (s : DBState) (P : String) (r : Reception)
    (init : List Product) (plast : Product)
    (hP : P ≠ "")
    (hres : GetLastOpenReception s P = some r)
    (hprods : productsOfReception s r.id = init ++ [plast])
    (hinc : List.Chain' (fun a b => a.datetime < b.datetime) (init ++ [plast]))
    (hids : ∀ q ∈ init, q.id ≠ plast.id) :
    (DeleteLastProductHandler "employee" P s).1 = HandlerOutcome.success 200 () ∧
    (DeleteLastProductHandler "employee" P s).2.products =
      s.products.filter (fun q => q.id != plast.id) ∧
    productsOfReception (DeleteLastProductHandler "employee" P s).2 r.id = init := by
  have hlast := getLastProduct_strict_increasing s r.id init plast hprods hinc
  have hspec := getLastOpenReception_spec s P r hres
  have hmem : plast ∈ s.products := by
    have hm1 : plast ∈ productsOfReception s r.id := by
      rw [hprods]
      exact List.mem_append_right init (List.mem_singleton.mpr rfl)
    exact (List.mem_filter.mp hm1).1
  have hlen : ((s.products.filter (fun q => q.id != plast.id)).length ==
      s.products.length) = false := by
    have hlt := length_filter_lt_of_mem (fun q => q.id != plast.id) s.products plast
      hmem (by simp)
    simp [Nat.ne_of_lt hlt]
  have hdel : DeleteProduct s plast.id =
      Except.ok { s with products := s.products.filter (fun q => q.id != plast.id) } := by
    simp only [DeleteProduct, hlen]
    rfl
  have hPf : (P == "") = false := by simp [hP]
  have hstf : (r.status != "in_progress") = false := by simp [hspec.2.2.1]
  have hh : DeleteLastProductHandler "employee" P s =
      (HandlerOutcome.success 200 (),
        { s with products := s.products.filter (fun q => q.id != plast.id) }) := by
    simp [DeleteLastProductHandler, hPf, hres, hstf, hlast, hdel]
  have hnew : productsOfReception
      { s with products := s.products.filter (fun q => q.id != plast.id) } r.id = init := by
    show (List.filter (fun q => q.id != plast.id) s.products).filter
        (fun p => p.receptionId == r.id) = init
    rw [filter_swap]
    have h2 : List.filter (fun p => p.receptionId == r.id) s.products = init ++ [plast] :=
      hprods
    rw [h2, List.filter_append]
    have h3 : init.filter (fun q => q.id != plast.id) = init :=
      List.filter_eq_self.mpr (fun q hq => by simp [hids q hq])
    have h4 : ([plast].filter (fun q => q.id != plast.id)) = [] := by simp
    rw [h3, h4, List.append_nil]
  refine ⟨by rw [hh], by rw [hh], ?_⟩
  rw [hh]
  exact hnew

/-- Witness for C2: a reception with three products added at times 1, 2, 3;
DeleteLastProduct removes the third one and leaves the first two. -/
theorem deleteLastProduct_strict_lifo_witness :
    GetLastOpenReception
        { pvzs := [], receptions := [{ id := "r1", datetime := 10, pvzId := "pvz1", status := "in_progress" }],
          products := [{ id := "a", datetime := 1, type := "обувь", receptionId := "r1" },
                       { id := "b", datetime := 2, type := "одежда", receptionId := "r1" },
                       { id := "c", datetime := 3, type := "электроника", receptionId := "r1" }] }
        "pvz1" = some { id := "r1", datetime := 10, pvzId := "pvz1", status := "in_progress" } ∧
    (DeleteLastProductHandler "employee" "pvz1"
        { pvzs := [], receptions := [{ id := "r1", datetime := 10, pvzId := "pvz1", status := "in_progress" }],
          products := [{ id := "a", datetime := 1, type := "обувь", receptionId := "r1" },
                       { id := "b", datetime := 2, type := "одежда", receptionId := "r1" },
                       { id := "c", datetime := 3, type := "электроника", receptionId := "r1" }] }).1 =
      HandlerOutcome.success 200 () ∧
    productsOfReception (DeleteLastProductHandler "employee" "pvz1"
        { pvzs := [], receptions := [{ id := "r1", datetime := 10, pvzId := "pvz1", status := "in_progress" }],
          products := [{ id := "a", datetime := 1, type := "обувь", receptionId := "r1" },
                       { id := "b", datetime := 2, type := "одежда", receptionId := "r1" },
                       { id := "c", datetime := 3, type := "электроника", receptionId := "r1" }] }).2 "r1" =
      [{ id := "a", datetime := 1, type := "обувь", receptionId := "r1" },
       { id := "b", datetime := 2, type := "одежда", receptionId := "r1" }] := by
  have h := deleteLastProduct_strict_lifo
    { pvzs := [], receptions := [{ id := "r1", datetime := 10, pvzId := "pvz1", status := "in_progress" }],
      products := [{ id := "a", datetime := 1, type := "обувь", receptionId := "r1" },
                   { id := "b", datetime := 2, type := "одежда", receptionId := "r1" },
                   { id := "c", datetime := 3, type := "электроника", receptionId := "r1" }] }
    "pvz1" { id := "r1", datetime := 10, pvzId := "pvz1", status := "in_progress" }
    [{ id := "a", datetime := 1, type := "обувь", receptionId := "r1" },
     { id := "b", datetime := 2, type := "одежда", receptionId := "r1" }]
    { id := "c", datetime := 3, type := "электроника", receptionId := "r1" }
    (by decide) (by decide) (by decide) (by simp [List.chain'_cons]) (by decide)
  exact ⟨by decide, h.1, h.2.2⟩

/-! Conflict check of POST /receptions and type validation of POST /products. -/

/-- C3: for a sequentially executed OpenReception call with a valid body and
employee role: when an open reception already exists for the pickup point the
call fails with the conflict error and performs no write; when none exists,
exactly one reception row with in_progress status and the current timestamp
is inserted and returned.  The guard CheckOpenReception is also characterized
as existence of an open reception row. -/
theorem createReception_conflict_or_insert (isUUID : String → Bool)
    (role pvzID id : String) (now : Nat) (s : DBState)
    (hrole : role = "employee") (hP : pvzID ≠ "") (hu : isUUID pvzID = true) :
    (CheckOpenReception s pvzID = true ↔
      ∃ r ∈ s.receptions, r.pvzId = pvzID ∧ r.status = "in_progress") ∧
    (CheckOpenReception s pvzID = true →
      CreateReceptionHandler isUUID role (some pvzID) s id now =
        (HandlerOutcome.failure 400 "Для данного ПВЗ уже есть незакрытая приёмка", s)) ∧
    (CheckOpenReception s pvzID = false →
      CreateReceptionHandler isUUID role (some pvzID) s id now =
        (HandlerOutcome.success 201
            { id := id, datetime := now, pvzId := pvzID, status := "in_progress" },
          { s with receptions := s.receptions ++
              [{ id := id, datetime := now, pvzId := pvzID, status := "in_progress" }] })) := by
  subst hrole
  have hPf : (pvzID == "") = false := by simp [hP]
  refine ⟨?_, ?_, ?_⟩
  · unfold CheckOpenReception
    rw [List.any_eq_true]
    constructor
    · rintro ⟨r, hr, hcond⟩
      simp only [Bool.and_eq_true, beq_iff_eq] at hcond
      exact ⟨r, hr, hcond.1, hcond.2⟩
    · rintro ⟨r, hr, h1, h2⟩
      exact ⟨r, hr, by simp [h1, h2]⟩
  · intro hchk
    simp [CreateReceptionHandler, hPf, hu, hchk]
  · intro hchk
    simp [CreateReceptionHandler, hPf, hu, hchk, CreateReceptionQuery]

/-- Witness for C3: with an open reception present the second call conflicts
and writes nothing; on an empty database the call inserts the one row. -/
theorem createReception_conflict_or_insert_witness :
    CreateReceptionHandler (fun _ => true) "employee" (some "pvz1")
        { pvzs := [], receptions := [{ id := "r1", datetime := 1, pvzId := "pvz1", status := "in_progress" }], products := [] }
        "r2" 5 =
      (HandlerOutcome.failure 400 "Для данного ПВЗ уже есть незакрытая приёмка",
        { pvzs := [], receptions := [{ id := "r1", datetime := 1, pvzId := "pvz1", status := "in_progress" }], products := [] }) ∧
    CreateReceptionHandler (fun _ => true) "employee" (some "pvz1")
        { pvzs := [], receptions := [], products := [] } "r1" 1 =
      (HandlerOutcome.success 201 { id := "r1", datetime := 1, pvzId := "pvz1", status := "in_progress" },
        { pvzs := [], receptions := [{ id := "r1", datetime := 1, pvzId := "pvz1", status := "in_progress" }], products := [] }) := by
  constructor
  · exact (createReception_conflict_or_insert (fun _ => true) "employee" "pvz1" "r2" 5
      { pvzs := [], receptions := [{ id := "r1", datetime := 1, pvzId := "pvz1", status := "in_progress" }], products := [] }
      rfl (by decide) rfl).2.1 (by decide)
  · exact (createReception_conflict_or_insert (fun _ => true) "employee" "pvz1" "r1" 1
      { pvzs := [], receptions := [], products := [] }
      rfl (by decide) rfl).2.2 (by decide)

/-- C5: AddProduct accepts exactly the three product types of the oneof
validator: with an employee caller and an open reception, a call whose type
is in the set creates a product of that type; a call whose type is outside
the set is rejected with the validation error and creates no product. -/
theorem addProduct_type_validation (isUUID : String → Bool) (ptype pvzID id : String)
    (now : Nat) (s : DBState) :
    (∀ r, ptype ∈ productTypes → isUUID pvzID = true → pvzID ≠ "" →
      GetLastOpenReception s pvzID = some r →
      AddProductHandler isUUID "employee" (some (ptype, pvzID)) s id now =
        (HandlerOutcome.success 201
            { id := id, datetime := now, type := ptype, receptionId := r.id },
          { s with products := s.products ++
              [{ id := id, datetime := now, type := ptype, receptionId := r.id }] })) ∧
    (ptype ∉ productTypes →
      AddProductHandler isUUID "employee" (some (ptype, pvzID)) s id now =
        (HandlerOutcome.failure 400 "Неверный запрос", s)) := by
  constructor
  · intro r htype hu hP hres
    have hPf : (pvzID == "") = false := by simp [hP]
    have hstf : (r.status != "in_progress") = false := by
      simp [(getLastOpenReception_spec s pvzID r hres).2.2.1]
    simp [AddProductHandler, hPf, hu, htype, hres, hstf, AddProductQuery]
  · intro htype
    simp [AddProductHandler, htype]

/-- Witness for C5: with an open reception, type обувь is accepted and the
product is created; type книги is rejected with the validation error and the
state is unchanged. -/
theorem addProduct_type_validation_witness :
    (AddProductHandler (fun _ => true) "employee" (some ("обувь", "pvz1"))
        { pvzs := [], receptions := [{ id := "r1", datetime := 1, pvzId := "pvz1", status := "in_progress" }], products := [] }
        "p1" 5).1 =
      HandlerOutcome.success 201 { id := "p1", datetime := 5, type := "обувь", receptionId := "r1" } ∧
    AddProductHandler (fun _ => true) "employee" (some ("книги", "pvz1"))
        { pvzs := [], receptions := [{ id := "r1", datetime := 1, pvzId := "pvz1", status := "in_progress" }], products := [] }
        "p1" 5 =
      (HandlerOutcome.failure 400 "Неверный запрос",
        { pvzs := [], receptions := [{ id := "r1", datetime := 1, pvzId := "pvz1", status := "in_progress" }], products := [] }) := by
  constructor
  · have h := (addProduct_type_validation (fun _ => true) "обувь" "pvz1" "p1" 5
      { pvzs := [], receptions := [{ id := "r1", datetime := 1, pvzId := "pvz1", status := "in_progress" }], products := [] }).1
      { id := "r1", datetime := 1, pvzId := "pvz1", status := "in_progress" }
      (by decide) rfl (by decide) (by decide)
    rw [h]
  · exact (addProduct_type_validation (fun _ => true) "книги" "pvz1" "p1" 5
      { pvzs := [], receptions := [{ id := "r1", datetime := 1, pvzId := "pvz1", status := "in_progress" }], products := [] }).2
      (by decide)

/-! Exhaustive failure-case analysis of DeleteLastProduct. -/

theorem length_filter_ne_of_nodup (l : List Product) (a : Product)
    (hnd : (l.map (fun p => p.id)).Nodup) (ha : a ∈ l) :
    (l.filter (fun q => q.id != a.id)).length + 1 = l.length := by
  induction l with
  | nil => cases ha
  | cons b bs ih =>
    rw [List.map_cons, List.nodup_cons] at hnd
    rcases List.mem_cons.mp ha with rfl | ha2
    · rw [List.filter_cons_of_neg (by simp)]
      have hall : bs.filter (fun q => q.id != a.id) = bs := by
        apply List.filter_eq_self.mpr
        intro q hq
        have hqm : q.id ∈ bs.map (fun p => p.id) := List.mem_map_of_mem _ hq
        simp only [bne_iff_ne, ne_eq]
        intro he
        apply hnd.1
        rw [← he]
        exact hqm
      rw [hall]
      rfl
    · have hb : (b.id != a.id) = true := by
        have hmem : a.id ∈ bs.map (fun p => p.id) := List.mem_map_of_mem _ ha2
        simp only [bne_iff_ne, ne_eq]
        intro he
        apply hnd.1
        rw [he]
        exact hmem
      simp only [List.filter_cons, hb, if_true, List.length_cons]
      have := ih hnd.2 ha2
      omega

theorem deleteLastProductHandler_outcomes (role pvzID : String) (s : DBState) :
    (DeleteLastProductHandler role pvzID s).1 =
        HandlerOutcome.failure 403 "Доступ запрещен: только сотрудники могут удалять товары" ∨
    (DeleteLastProductHandler role pvzID s).1 =
        HandlerOutcome.failure 400 "Не указан ID ПВЗ" ∨
    (DeleteLastProductHandler role pvzID s).1 =
        HandlerOutcome.failure 400 "Нет активной приёмки для данного ПВЗ" ∨
    (DeleteLastProductHandler role pvzID s).1 =
        HandlerOutcome.failure 400 "Нет товаров для удаления в данной приёмке" ∨
    (DeleteLastProductHandler role pvzID s).1 = HandlerOutcome.success 200 () := by
  unfold DeleteLastProductHandler
  split
  · exact Or.inl rfl
  · split
    · exact Or.inr (Or.inl rfl)
    · split
      · exact Or.inr (Or.inr (Or.inl rfl))
      · next r heq =>
        split
        · next hst =>
          have hsp := (getLastOpenReception_spec s pvzID r heq).2.2.1
          simp [hsp] at hst
        · split
          · exact Or.inr (Or.inr (Or.inr (Or.inl rfl)))
          · next p hp =>
            cases hdel : DeleteProduct s p.id with
            | error e =>
              have hpmem := (getLastProductFromReception_spec s r.id p hp).1
              have hlt := length_filter_lt_of_mem (fun q => q.id != p.id)
                s.products p hpmem (by simp)
              simp only [DeleteProduct] at hdel
              split at hdel
              · next hcond =>
                simp only [beq_iff_eq] at hcond
                omega
              · exact absurd hdel (by simp)
            | ok s1 =>
              exact Or.inr (Or.inr (Or.inr (Or.inr rfl)))

/-- C6: with an employee caller and a product table with unique ids,
DeleteLastProduct fails leaving the state unchanged exactly when the pickup
point id is empty (validation error), no open reception resolves (not-found
error), or the resolved reception has zero products (not-found error); the
defensive already-closed conflict branch and the zero-rows-affected internal
error branch never fire; in every other case it succeeds with HTTP 200 and
deletes exactly one product row. -/
theorem deleteLastProduct_failure_cases (pvzID : String) (s : DBState)
    (hnodup : (s.products.map (fun p => p.id)).Nodup) :
    (pvzID = "" →
      DeleteLastProductHandler "employee" pvzID s =
        (HandlerOutcome.failure 400 "Не указан ID ПВЗ", s)) ∧
    (pvzID ≠ "" → GetLastOpenReception s pvzID = none →
      DeleteLastProductHandler "employee" pvzID s =
        (HandlerOutcome.failure 400 "Нет активной приёмки для данного ПВЗ", s)) ∧
    (∀ r, pvzID ≠ "" → GetLastOpenReception s pvzID = some r →
      GetLastProductFromReception s r.id = none →
      DeleteLastProductHandler "employee" pvzID s =
        (HandlerOutcome.failure 400 "Нет товаров для удаления в данной приёмке", s)) ∧
    (∀ r p, pvzID ≠ "" → GetLastOpenReception s pvzID = some r →
      GetLastProductFromReception s r.id = some p →
      (DeleteLastProductHandler "employee" pvzID s).1 = HandlerOutcome.success 200 () ∧
      (DeleteLastProductHandler "employee" pvzID s).2.products.length + 1 =
        s.products.length) ∧
    ((DeleteLastProductHandler "employee" pvzID s).1 ≠
      HandlerOutcome.failure 400 "Приёмка уже закрыта") ∧
    ((DeleteLastProductHandler "employee" pvzID s).1 ≠
      HandlerOutcome.failure 500 "Ошибка при удалении товара") := by
  refine ⟨?_, ?_, ?_, ?_, ?_, ?_⟩
  · intro h
    subst h
    simp [DeleteLastProductHandler]
  · intro hne hnone
    have hPf : (pvzID == "") = false := by simp [hne]
    simp [DeleteLastProductHandler, hPf, hnone]
  · intro r hne hres hnone
    have hPf : (pvzID == "") = false := by simp [hne]
    have hstf : (r.status != "in_progress") = false := by
      simp [(getLastOpenReception_spec s pvzID r hres).2.2.1]
    simp [DeleteLastProductHandler, hPf, hres, hstf, hnone]
  · intro r p hne hres hp
    have hPf : (pvzID == "") = false := by simp [hne]
    have hstf : (r.status != "in_progress") = false := by
      simp [(getLastOpenReception_spec s pvzID r hres).2.2.1]
    have hpmem := (getLastProductFromReception_spec s r.id p hp).1
    have hcount := length_filter_ne_of_nodup s.products p hnodup hpmem
    have hlen : ((s.products.filter (fun q => q.id != p.id)).length ==
        s.products.length) = false := by
      simp only [beq_eq_false_iff_ne, ne_eq]
      omega
    have hdel : DeleteProduct s p.id =
        Except.ok { s with products := s.products.filter (fun q => q.id != p.id) } := by
      simp only [DeleteProduct, hlen]
      rfl
    have hh : DeleteLastProductHandler "employee" pvzID s =
        (HandlerOutcome.success 200 (),
          { s with products := s.products.filter (fun q => q.id != p.id) }) := by
      simp [DeleteLastProductHandler, hPf, hres, hstf, hp, hdel]
    rw [hh]
    exact ⟨rfl, hcount⟩
  · rcases deleteLastProductHandler_outcomes "employee" pvzID s with h | h | h | h | h <;>
      rw [h] <;> decide
  · rcases deleteLastProductHandler_outcomes "employee" pvzID s with h | h | h | h | h <;>
      rw [h] <;> decide

/-- Witness for C6: on a database whose open reception holds one product, the
call for its pickup point succeeds and removes that one row, and the call for
an unknown pickup point fails with the not-found error and no write. -/
theorem deleteLastProduct_failure_cases_witness :
    (DeleteLastProductHandler "employee" "pvz1"
        { pvzs := [], receptions := [{ id := "r1", datetime := 1, pvzId := "pvz1", status := "in_progress" }],
          products := [{ id := "a", datetime := 2, type := "обувь", receptionId := "r1" }] }).1 =
      HandlerOutcome.success 200 () ∧
    (DeleteLastProductHandler "employee" "pvz1"
        { pvzs := [], receptions := [{ id := "r1", datetime := 1, pvzId := "pvz1", status := "in_progress" }],
          products := [{ id := "a", datetime := 2, type := "обувь", receptionId := "r1" }] }).2.products.length + 1 = 1 ∧
    DeleteLastProductHandler "employee" "pvz2"
        { pvzs := [], receptions := [{ id := "r1", datetime := 1, pvzId := "pvz1", status := "in_progress" }],
          products := [{ id := "a", datetime := 2, type := "обувь", receptionId := "r1" }] } =
      (HandlerOutcome.failure 400 "Нет активной приёмки для данного ПВЗ",
        { pvzs := [], receptions := [{ id := "r1", datetime := 1, pvzId := "pvz1", status := "in_progress" }],
          products := [{ id := "a", datetime := 2, type := "обувь", receptionId := "r1" }] }) := by
  have h1 := (deleteLastProduct_failure_cases "pvz1"
    { pvzs := [], receptions := [{ id := "r1", datetime := 1, pvzId := "pvz1", status := "in_progress" }],
      products := [{ id := "a", datetime := 2, type := "обувь", receptionId := "r1" }] }
    (by decide)).2.2.2.1
    { id := "r1", datetime := 1, pvzId := "pvz1", status := "in_progress" }
    { id := "a", datetime := 2, type := "обувь", receptionId := "r1" }
    (by decide) (by decide) (by decide)
  have h2 := (deleteLastProduct_failure_cases "pvz2"
    { pvzs := [], receptions := [{ id := "r1", datetime := 1, pvzId := "pvz1", status := "in_progress" }],
      products := [{ id := "a", datetime := 2, type := "обувь", receptionId := "r1" }] }
    (by decide)).2.1 (by decide) (by decide)
  exact ⟨h1.1, h1.2, h2⟩

/-! Listing: malformed date filters and pagination. -/

/-- C7: a ListPickupPoints call whose startDate or endDate string does not
parse as RFC3339 behaves exactly as if that date filter were absent: the
filter is not applied, the call still succeeds with the unfiltered result,
and no error is raised. -/
theorem getPVZList_ignores_malformed_dates (parseRFC3339 : String → Option Nat)
    (s : DBState) (params : PVZListQuery) :
    (parseRFC3339 params.startDate = none →
      GetPVZList parseRFC3339 s params =
        GetPVZList parseRFC3339 s { params with startDate := "" }) ∧
    (parseRFC3339 params.endDate = none →
      GetPVZList parseRFC3339 s params =
        GetPVZList parseRFC3339 s { params with endDate := "" }) := by
  constructor
  · intro h
    have hm : matchesDateRange parseRFC3339 { params with startDate := "" } =
        matchesDateRange parseRFC3339 params := by
      funext p
      unfold matchesDateRange startDateFilter endDateFilter
      by_cases hse : (params.startDate == "") = true
      · simp [hse]
      · simp [hse, h]
    unfold GetPVZList
    rw [hm]
  · intro h
    have hm : matchesDateRange parseRFC3339 { params with endDate := "" } =
        matchesDateRange parseRFC3339 params := by
      funext p
      unfold matchesDateRange startDateFilter endDateFilter
      by_cases hse : (params.endDate == "") = true
      · simp [hse]
      · simp [hse, h]
    unfold GetPVZList
    rw [hm]

/-- Witness for C7: the malformed dates 2025/03/01 and yesterday are ignored
and the result equals the unfiltered listing. -/
theorem getPVZList_ignores_malformed_dates_witness :
    GetPVZList (fun _ => none)
        { pvzs := [{ id := "v1", registrationDate := 4, city := "Казань" }], receptions := [], products := [] }
        { startDate := "2025/03/01", endDate := "yesterday", page := 1, limit := 10 } =
      GetPVZList (fun _ => none)
        { pvzs := [{ id := "v1", registrationDate := 4, city := "Казань" }], receptions := [], products := [] }
        { startDate := "", endDate := "yesterday", page := 1, limit := 10 } := by
  exact (getPVZList_ignores_malformed_dates (fun _ => none)
    { pvzs := [{ id := "v1", registrationDate := 4, city := "Казань" }], receptions := [], products := [] }
    { startDate := "2025/03/01", endDate := "yesterday", page := 1, limit := 10 }).1 rfl

/-- C8: for page at least 1 and limit in 1..30, ListPickupPoints returns the
date-matching pickup points in descending registration-timestamp order,
skipping (page-1)*limit rows and returning at most limit rows, and reports
the total count of all matching rows, independent of the page and limit. -/
theorem getPVZList_pagination (parseRFC3339 : String → Option Nat) (s : DBState)
    (params : PVZListQuery) (_hpage : 1 ≤ params.page)
    (_hlimit : 1 ≤ params.limit ∧ params.limit ≤ 30) :
    ∃ full : List PVZ,
      List.Perm full (s.pvzs.filter (matchesDateRange parseRFC3339 params)) ∧
      List.Pairwise (fun a b => b.registrationDate ≤ a.registrationDate) full ∧
      (GetPVZList parseRFC3339 s params).1 =
        (full.drop ((params.page - 1) * params.limit)).take params.limit ∧
      (GetPVZList parseRFC3339 s params).1.length ≤ params.limit ∧
      (GetPVZList parseRFC3339 s params).2 =
        (s.pvzs.filter (matchesDateRange parseRFC3339 params)).length ∧
      ∀ q l2, (GetPVZList parseRFC3339 s { params with page := q, limit := l2 }).2 =
        (GetPVZList parseRFC3339 s params).2 := by
  refine ⟨sortByKeyDesc (fun p => p.registrationDate)
      (s.pvzs.filter (matchesDateRange parseRFC3339 params)),
    sortByKeyDesc_perm _ _, sortByKeyDesc_pairwise _ _, rfl, ?_, rfl, ?_⟩
  · show (((sortByKeyDesc (fun p => p.registrationDate)
        (s.pvzs.filter (matchesDateRange parseRFC3339 params))).drop
          ((params.page - 1) * params.limit)).take params.limit).length ≤ params.limit
    rw [List.length_take]
    exact Nat.min_le_left _ _
  · intro q l2
    rfl

/-- Witness for C8: three pickup points, page 2 with limit 1 returns exactly
one point while the reported total stays 3 (scenario 6 of the spec). -/
theorem getPVZList_pagination_witness :
    (∃ full : List PVZ,
      List.Perm full (({ pvzs := [{ id := "v1", registrationDate := 1, city := "Москва" },
                                  { id := "v2", registrationDate := 2, city := "Казань" },
                                  { id := "v3", registrationDate := 3, city := "Москва" }],
                         receptions := [], products := [] } : DBState).pvzs.filter
        (matchesDateRange (fun _ => none) { startDate := "", endDate := "", page := 2, limit := 1 })) ∧
      List.Pairwise (fun a b => b.registrationDate ≤ a.registrationDate) full ∧
      (GetPVZList (fun _ => none)
          { pvzs := [{ id := "v1", registrationDate := 1, city := "Москва" },
                     { id := "v2", registrationDate := 2, city := "Казань" },
                     { id := "v3", registrationDate := 3, city := "Москва" }],
            receptions := [], products := [] }
          { startDate := "", endDate := "", page := 2, limit := 1 }).1 =
        (full.drop ((2 - 1) * 1)).take 1 ∧
      (GetPVZList (fun _ => none)
          { pvzs := [{ id := "v1", registrationDate := 1, city := "Москва" },
                     { id := "v2", registrationDate := 2, city := "Казань" },
                     { id := "v3", registrationDate := 3, city := "Москва" }],
            receptions := [], products := [] }
          { startDate := "", endDate := "", page := 2, limit := 1 }).1.length ≤ 1 ∧
      (GetPVZList (fun _ => none)
          { pvzs := [{ id := "v1", registrationDate := 1, city := "Москва" },
                     { id := "v2", registrationDate := 2, city := "Казань" },
                     { id := "v3", registrationDate := 3, city := "Москва" }],
            receptions := [], products := [] }
          { startDate := "", endDate := "", page := 2, limit := 1 }).2 =
        (({ pvzs := [{ id := "v1", registrationDate := 1, city := "Москва" },
                     { id := "v2", registrationDate := 2, city := "Казань" },
                     { id := "v3", registrationDate := 3, city := "Москва" }],
            receptions := [], products := [] } : DBState).pvzs.filter
          (matchesDateRange (fun _ => none) { startDate := "", endDate := "", page := 2, limit := 1 })).length ∧
      ∀ q l2, (GetPVZList (fun _ => none)
          { pvzs := [{ id := "v1", registrationDate := 1, city := "Москва" },
                     { id := "v2", registrationDate := 2, city := "Казань" },
                     { id := "v3", registrationDate := 3, city := "Москва" }],
            receptions := [], products := [] }
          { startDate := "", endDate := "", page := q, limit := l2 }).2 =
        (GetPVZList (fun _ => none)
          { pvzs := [{ id := "v1", registrationDate := 1, city := "Москва" },
                     { id := "v2", registrationDate := 2, city := "Казань" },
                     { id := "v3", registrationDate := 3, city := "Москва" }],
            receptions := [], products := [] }
          { startDate := "", endDate := "", page := 2, limit := 1 }).2) ∧
    (GetPVZList (fun _ => none)
        { pvzs := [{ id := "v1", registrationDate := 1, city := "Москва" },
                   { id := "v2", registrationDate := 2, city := "Казань" },
                   { id := "v3", registrationDate := 3, city := "Москва" }],
          receptions := [], products := [] }
        { startDate := "", endDate := "", page := 2, limit := 1 }).1 =
      [{ id := "v2", registrationDate := 2, city := "Казань" }] ∧
    (GetPVZList (fun _ => none)
        { pvzs := [{ id := "v1", registrationDate := 1, city := "Москва" },
                   { id := "v2", registrationDate := 2, city := "Казань" },
                   { id := "v3", registrationDate := 3, city := "Москва" }],
          receptions := [], products := [] }
        { startDate := "", endDate := "", page := 2, limit := 1 }).2 = 3 := by
  refine ⟨?_, by decide, by decide⟩
  exact getPVZList_pagination (fun _ => none)
    { pvzs := [{ id := "v1", registrationDate := 1, city := "Москва" },
               { id := "v2", registrationDate := 2, city := "Казань" },
               { id := "v3", registrationDate := 3, city := "Москва" }],
      receptions := [], products := [] }
    { startDate := "", endDate := "", page := 2, limit := 1 }
    (by decide) (by decide)

/-! Order of validation and role check in CreatePVZ, and reception
resolution of the product mutations. -/

/-- C9: in CreatePVZ request-body validation precedes the role check: every
request with a malformed body or a city outside the accepted set gets the 400
validation error even when the caller is not a moderator, and a 403 forbidden
response occurs only for a well-formed body with an accepted city and a
non-moderator role. -/
theorem createPVZ_validation_before_role (role : String) (body : Option String)
    (s : DBState) (id : String) (now : Nat) :
    (body = none →
      CreatePVZHandler role body s id now =
        (HandlerOutcome.failure 400 "Неверный запрос", s)) ∧
    (∀ city, body = some city → city ∉ allowedCities →
      CreatePVZHandler role body s id now =
        (HandlerOutcome.failure 400 "Неверный запрос", s)) ∧
    (∀ msg, (CreatePVZHandler role body s id now).1 = HandlerOutcome.failure 403 msg →
      role ≠ "moderator" ∧ ∃ city, body = some city ∧ city ∈ allowedCities) := by
  refine ⟨?_, ?_, ?_⟩
  · intro h
    subst h
    rfl
  · intro city hbody hcity
    subst hbody
    simp [CreatePVZHandler, hcity]
  · intro msg h
    cases body with
    | none => simp [CreatePVZHandler] at h
    | some city =>
      by_cases hc : city ∈ allowedCities
      · by_cases hr : (role != "moderator") = true
        · exact ⟨by simpa using hr, city, rfl, hc⟩
        · simp only [Bool.not_eq_true] at hr
          simp [CreatePVZHandler, hc, hr] at h
      · simp [CreatePVZHandler, hc] at h

/-- Witness for C9: an invalid city from a non-moderator caller yields the 400
validation error, not the 403 role error. -/
theorem createPVZ_validation_before_role_witness :
    CreatePVZHandler "employee" (some "Киев")
        { pvzs := [], receptions := [], products := [] } "v1" 1 =
      (HandlerOutcome.failure 400 "Неверный запрос",
        { pvzs := [], receptions := [], products := [] }) := by
  exact (createPVZ_validation_before_role "employee" (some "Киев")
    { pvzs := [], receptions := [], products := [] } "v1" 1).2.1 "Киев" rfl (by decide)

/-- C10: AddProduct and DeleteLastProduct resolve their target reception as
the open reception with the greatest open timestamp for the pickup point
(ORDER BY datetime DESC LIMIT 1): the resolved reception is open, belongs to
the point and dominates every other open reception of the point even when
several are abnormally open, AddProduct inserts its product under it, and a
DeleteLastProduct only ever removes products owned by it (given unique
product ids). -/
theorem mutations_target_latest_open_reception (isUUID : String → Bool)
    (s : DBState) (P : String) (r : Reception)
    (hres : GetLastOpenReception s P = some r) :
    (r ∈ s.receptions ∧ r.pvzId = P ∧ r.status = "in_progress" ∧
      ∀ q ∈ s.receptions, q.pvzId = P → q.status = "in_progress" →
        q.datetime ≤ r.datetime) ∧
    (∀ ptype id now, ptype ∈ productTypes → isUUID P = true → P ≠ "" →
      (AddProductHandler isUUID "employee" (some (ptype, P)) s id now).2.products =
        s.products ++ [{ id := id, datetime := now, type := ptype, receptionId := r.id }]) ∧
    ((s.products.map (fun p => p.id)).Nodup →
      ∀ q ∈ s.products, q ∉ (DeleteLastProductHandler "employee" P s).2.products →
        q.receptionId = r.id) := by
  have hspec := getLastOpenReception_spec s P r hres
  refine ⟨hspec, ?_, ?_⟩
  · intro ptype id now htype hu hP
    have hPf : (P == "") = false := by simp [hP]
    have hstf : (r.status != "in_progress") = false := by simp [hspec.2.2.1]
    simp [AddProductHandler, hPf, hu, htype, hres, hstf, AddProductQuery]
  · intro hnodup q hq hnot
    by_cases hP : P = ""
    · subst hP
      simp [DeleteLastProductHandler] at hnot
      exact absurd hq hnot
    · have hPf : (P == "") = false := by simp [hP]
      have hstf : (r.status != "in_progress") = false := by simp [hspec.2.2.1]
      cases hp : GetLastProductFromReception s r.id with
      | none =>
        have hh : (DeleteLastProductHandler "employee" P s).2 = s := by
          simp [DeleteLastProductHandler, hPf, hres, hstf, hp]
        rw [hh] at hnot
        exact absurd hq hnot
      | some p =>
        have hpmem := (getLastProductFromReception_spec s r.id p hp).1
        have hcount := length_filter_ne_of_nodup s.products p hnodup hpmem
        have hlen : ((s.products.filter (fun x => x.id != p.id)).length ==
            s.products.length) = false := by
          simp only [beq_eq_false_iff_ne, ne_eq]
          omega
        have hdel : DeleteProduct s p.id =
            Except.ok { s with products := s.products.filter (fun x => x.id != p.id) } := by
          simp only [DeleteProduct, hlen]
          rfl
        have hh : (DeleteLastProductHandler "employee" P s).2 =
            { s with products := s.products.filter (fun x => x.id != p.id) } := by
          simp [DeleteLastProductHandler, hPf, hres, hstf, hp, hdel]
        rw [hh] at hnot
        have hqid : q.id = p.id := by
          by_contra hne
          apply hnot
          exact List.mem_filter.mpr ⟨hq, by simp [hne]⟩
        have hqp : q = p := List.inj_on_of_nodup_map hnodup hq hpmem hqid
        rw [hqp]
        exact (getLastProductFromReception_spec s r.id p hp).2.1

/-- Witness for C10: with two receptions abnormally open for the same point,
resolution picks the one opened later and AddProduct attaches its product to
that one. -/
theorem mutations_target_latest_open_reception_witness :
    GetLastOpenReception
        { pvzs := [], receptions := [{ id := "r1", datetime := 1, pvzId := "pvz1", status := "in_progress" },
                                     { id := "r2", datetime := 5, pvzId := "pvz1", status := "in_progress" }],
          products := [] } "pvz1" =
      some { id := "r2", datetime := 5, pvzId := "pvz1", status := "in_progress" } ∧
    (AddProductHandler (fun _ => true) "employee" (some ("обувь", "pvz1"))
        { pvzs := [], receptions := [{ id := "r1", datetime := 1, pvzId := "pvz1", status := "in_progress" },
                                     { id := "r2", datetime := 5, pvzId := "pvz1", status := "in_progress" }],
          products := [] } "p1" 7).2.products =
      [{ id := "p1", datetime := 7, type := "обувь", receptionId := "r2" }] := by
  constructor
  · decide
  · exact (mutations_target_latest_open_reception (fun _ => true)
      { pvzs := [], receptions := [{ id := "r1", datetime := 1, pvzId := "pvz1", status := "in_progress" },
                                   { id := "r2", datetime := 5, pvzId := "pvz1", status := "in_progress" }],
        products := [] } "pvz1"
      { id := "r2", datetime := 5, pvzId := "pvz1", status := "in_progress" }
      (by decide)).2.1 "обувь" "p1" 7 (by decide) rfl (by decide)

end PvzService
